import Mathlib

/-!
Shallow embedding of the `ene_health` demo repository: the chat agent of
`standalone_ene_health_agent.py` (hallucination detector, thought tracker,
crisis / sensitive-topic dispatch) and the billing / insurance agents of
`standalone_billing_demo.py`.

Modelling conventions:
* Python strings are Lean `String`; the membership test `needle in haystack`
  is `containsSub`, and `str.lower()` is `lowerStr` (ASCII lowering).
* Python floats (rates, amounts, coverage fractions) are `ℚ`; every literal
  in the source is exactly representable and the arithmetic performed is
  exact on the claims considered.
* Nondeterministic inputs (wall-clock timestamps, uuid fragments) are passed
  as explicit `String` parameters.
* Mutable objects become explicit state records; a mutating method returns
  the new state together with the dictionary it returns.
-/

namespace EneHealth

/-! ### Substring matching (Python `in` on strings) -/

/-- Is `p` a contiguous sublist of the second argument?  Mirrors CPython
string containment. -/
def isSubList (p : List Char) : List Char → Bool
  | [] => p.isEmpty
  | c :: rest => p.isPrefixOf (c :: rest) || isSubList p rest

/-- Embeds `str.lower()` restricted to ASCII, as used on the keyword lists. -/
def lowerStr (s : String) : String := ⟨s.data.map Char.toLower⟩

/-- Python `needle in hay` for strings. -/
def containsSub (needle hay : String) : Bool := isSubList needle.data hay.data

/-! ### `SimpleHallucinationDetector` -/

structure SimpleHallucinationDetector where
  threshold : ℚ
  medical_claims : List String

/-- Embeds `SimpleHallucinationDetector.__init__` (default `threshold=0.7`). -/
def mkDetector (threshold : ℚ) : SimpleHallucinationDetector :=
  { threshold := threshold
    medical_claims :=
      ["cure", "guaranteed", "always works", "100% effective",
       "miracle", "instant relief", "permanent solution"] }

structure HallucinationResult where
  is_hallucination : Bool
  explanation : String
  deriving DecidableEq

/-- Embeds `SimpleHallucinationDetector.check_hallucination`: the for-loop returns
at the first matching phrase, i.e. `find?` over the phrase list. -/
def check_hallucination (d : SimpleHallucinationDetector) (text : String) :
    HallucinationResult :=
  let t := lowerStr text
  match d.medical_claims.find? (fun c => containsSub c t) with
  | some c =>
      { is_hallucination := true
        explanation :=
          "The statement contains potentially misleading medical claims like \x27"
            ++ c ++
            "\x27. Mental health treatments vary in effectiveness for different individuals." }
  | none =>
      { is_hallucination := false
        explanation := "No potential hallucinations detected." }

/-! ### `SimpleThoughtTracker` -/

structure SimpleThoughtTracker where
  thoughts : List String
  max_history : Nat
  deriving DecidableEq

/-- Embeds `SimpleThoughtTracker.__init__` (default `max_history=10`). -/
def mkTracker (max_history : Nat) : SimpleThoughtTracker :=
  { thoughts := [], max_history := max_history }

/-- Embeds `SimpleThoughtTracker.add_thought`: append, then `pop(0)` when the
length exceeds `max_history`. -/
def add_thought (tr : SimpleThoughtTracker) (thought : String) :
    SimpleThoughtTracker :=
  let ts := tr.thoughts ++ [thought]
  if tr.max_history < ts.length then { tr with thoughts := ts.drop 1 }
  else { tr with thoughts := ts }

/-- Embeds `SimpleThoughtTracker.get_thoughts`. -/
def get_thoughts (tr : SimpleThoughtTracker) : List String := tr.thoughts

/-! ### `EneHealthsAgent` configuration and knowledge base

The configuration dictionary of `_load_config` is immutable; its entries
become top-level constants.  Python dictionaries iterate in insertion
order, so dictionaries that are iterated become association lists. -/

def sensitive_topics : List String :=
  ["suicide", "self-harm", "abuse", "trauma",
   "eating disorders", "addiction", "crisis"]

def crisis_keywords : List String :=
  ["kill myself", "end my life", "suicide", "hurt myself",
   "self-harm", "die", "don\x27t want to live", "emergency"]

def support_resources : List (String × String) :=
  [("crisis", "988 Suicide & Crisis Lifeline (call or text 988)"),
   ("text", "Text HOME to 741741 to reach Crisis Text Line"),
   ("veterans", "Veterans Crisis Line: 1-800-273-8255 and Press 1"),
   ("general", "SAMHSA\x27s National Helpline: 1-800-662-HELP (4357)")]

def mental_health_topics : List String :=
  ["anxiety", "depression", "stress management", "trauma",
   "self-care", "mindfulness", "therapy options", "medication",
   "crisis support", "support groups", "wellness", "resilience"]

def services_table : List (String × String) :=
  [("counseling", "Individual and group counseling services"),
   ("assessment", "Mental health assessments and screening"),
   ("referrals", "Referrals to specialized mental health providers"),
   ("education", "Mental health education and workshops"),
   ("support_groups", "Peer support groups for various mental health concerns"),
   ("crisis_intervention", "Crisis intervention and support")]

def faqs : List (String × String) :=
  [("what_is_therapy",
    "Therapy is a collaborative treatment based on the relationship between an individual and a mental health professional."),
   ("how_to_find_therapist",
    "You can find a therapist through your insurance provider, referrals from healthcare providers, or community mental health centers."),
   ("therapy_cost",
    "The cost of therapy varies based on location, therapist credentials, and insurance coverage."),
   ("crisis_help",
    "If you\x27re experiencing a mental health crisis, contact emergency services (911) or call the 988 Suicide & Crisis Lifeline.")]

def org_name : String := "EneHealths"
def org_website : String := "https://enehealths.org"
def org_mission : String :=
  "To provide accessible mental health resources and support to all individuals."
def org_vision : String :=
  "A world where mental health care is accessible, stigma-free, and integrated into everyday life."

/-- The detector built in `EneHealthsAgent.__init__` with the configured
threshold `0.8`. -/
def agent_detector : SimpleHallucinationDetector := mkDetector 0.8

/-! ### `EneHealthsAgent` responder -/

/-- Embeds `EneHealthsAgent._is_crisis_situation`: the for-loop with early
`return True` is `List.any`. -/
def is_crisis_situation (text : String) : Bool :=
  crisis_keywords.any (fun keyword => containsSub keyword (lowerStr text))

/-- Embeds `EneHealthsAgent._contains_sensitive_topic`. -/
def contains_sensitive_topic (text : String) : Bool :=
  sensitive_topics.any (fun topic => containsSub topic (lowerStr text))

/-- Embeds `EneHealthsAgent._handle_crisis_situation`. -/
def handle_crisis_situation : String :=
  let response :=
    "I notice you may be experiencing a crisis. Your well-being is important, and immediate support is available.\n\n"
  let response := response ++ "Please consider these resources:\n"
  let response :=
    support_resources.foldl (fun acc p => acc ++ "- " ++ p.2 ++ "\n") response
  response ++
    "\nIf you\x27re in immediate danger, please call emergency services (911) or go to your nearest emergency room."

/-- Embeds `EneHealthsAgent._handle_sensitive_topic`: the loop picks the first
matching topic (`None` rendered as the string "None" by the f-string). -/
def handle_sensitive_topic (user_input : String) : String :=
  let topic :=
    match sensitive_topics.find? (fun t => containsSub t (lowerStr user_input)) with
    | some t => t
    | none => "None"
  let response := "I understand you\x27re asking about " ++ topic ++
    ", which is an important mental health concern. "
  let response := response ++
    "I want to provide helpful information while acknowledging that everyone\x27s experience is unique.\n\n"
  let response := response ++
    "EneHealths offers resources and support for individuals dealing with this issue. "
  response ++ "Speaking with a mental health professional can provide personalized support."

/-- Embeds `EneHealthsAgent._handle_hallucination`. -/
def handle_hallucination (hc : HallucinationResult) : String :=
  "I want to make sure I provide accurate information. " ++ hc.explanation ++ " " ++
    "I can help you find reliable information about mental health topics from EneHealths."

/-- Python `str.replace` for a single character. -/
def replaceChar (old new : Char) (s : String) : String :=
  ⟨s.data.map (fun c => if c = old then new else c)⟩

/-- Helper for Python `str.title`: uppercase a letter that follows a
non-letter, lowercase the other letters. -/
def titleAux : Bool → List Char → List Char
  | _, [] => []
  | prevAlpha, c :: rest =>
      (if prevAlpha then c.toLower else c.toUpper) :: titleAux c.isAlpha rest

/-- Python `str.title` (ASCII). -/
def pyTitle (s : String) : String := ⟨titleAux false s.data⟩

/-- Python `str.split(sep)` for a one-character separator, on char lists. -/
def splitOnChar (sep : Char) : List Char → List (List Char)
  | [] => [[]]
  | c :: rest =>
      let r := splitOnChar sep rest
      if c = sep then [] :: r
      else
        match r with
        | [] => [[c]]
        | w :: ws => (c :: w) :: ws

/-- Python `question.split(sep)` on strings. -/
def pySplit (sep : Char) (s : String) : List String :=
  (splitOnChar sep s.data).map fun l => ⟨l⟩

/-- Embeds `EneHealthsAgent._get_about_response`. -/
def get_about_response : String :=
  org_name ++ " is a mental health organization dedicated to " ++ org_mission ++ "\n\n" ++
    "Our vision is " ++ org_vision ++ "\n\n" ++
    "You can learn more at " ++ org_website

/-- Embeds `EneHealthsAgent._get_services_response`. -/
def get_services_response : String :=
  let response := "EneHealths offers the following mental health services:\n\n"
  services_table.foldl
    (fun acc p =>
      acc ++ "- " ++ pyTitle (replaceChar (Char.ofNat 95) (Char.ofNat 32) p.1) ++ ": " ++ p.2 ++ "\n")
    response

/-- Embeds `EneHealthsAgent._get_topic_info`. -/
def get_topic_info (topic : String) : String :=
  let response := "Information about " ++ topic ++ ":\n\n"
  if topic = "anxiety" then
    response ++
      "Anxiety is a normal emotion that can cause feelings of worry, fear, or tension. When these feelings become excessive, it may be an anxiety disorder. Treatment options include therapy, medication, and self-care practices."
  else if topic = "depression" then
    response ++
      "Depression is a common but serious mood disorder that causes persistent feelings of sadness and loss of interest. Treatment typically includes therapy, medication, or a combination of both."
  else if topic = "stress management" then
    response ++
      "Stress management encompasses techniques to cope with and reduce stress. Effective strategies include regular exercise, relaxation techniques, maintaining social connections, and practicing self-care."
  else
    response ++
      "EneHealths provides resources, education, and support for individuals dealing with " ++ topic ++ "."

/-- Embeds `EneHealthsAgent._generate_response`: keyword dispatch over the
lowercased input, with first-match semantics for the topic and FAQ loops. -/
def generate_response (user_input : String) : String :=
  let ui := lowerStr user_input
  if ["who are you", "about enehealths", "what is enehealths"].any
      (fun keyword => containsSub keyword ui) then
    get_about_response
  else if ["services", "help", "support", "offer"].any
      (fun keyword => containsSub keyword ui) then
    get_services_response
  else
    match mental_health_topics.find? (fun topic => containsSub topic ui) with
    | some topic => get_topic_info topic
    | none =>
        match faqs.find?
            (fun p => (pySplit (Char.ofNat 95) p.1).all (fun k => containsSub k ui)) with
        | some p => p.2
        | none =>
            "I\x27m here to provide information about mental health and EneHealths services. How can I assist you today?"

/-- Embeds `EneHealthsAgent.process_input`: crisis check first, then sensitive
topics, then the hallucination detector, then the regular responder.  The
mutable part of the agent is its thought tracker, threaded explicitly. -/
def process_input (tr : SimpleThoughtTracker) (user_input : String) :
    SimpleThoughtTracker × String :=
  let tr := add_thought tr ("Received input: " ++ user_input)
  if is_crisis_situation user_input then
    (add_thought tr "Detected crisis situation, providing emergency resources",
     handle_crisis_situation)
  else if contains_sensitive_topic user_input then
    (add_thought tr "Detected sensitive topic, providing careful response",
     handle_sensitive_topic user_input)
  else
    let hc := check_hallucination agent_detector user_input
    if hc.is_hallucination then
      (add_thought tr ("Potential hallucination detected: " ++ hc.explanation),
       handle_hallucination hc)
    else
      (add_thought tr "Processing regular input", generate_response user_input)

/-! ### `BillingAgent` (`standalone_billing_demo.py`)

The CPT table and payment-method list are fixed in `__init__` and never
mutated, so they are top-level constants; the mutable state is the pair of
ledgers `transactions` / `invoices`.  The two text renderings of the
current time (`strftime` inside generated ids, `isoformat` in records) are
both abstracted by the explicit `now` parameter. -/

structure CptInfo where
  description : String
  rate : ℚ
  duration_minutes : Nat
  deriving DecidableEq

/-- Embeds `BillingAgent._load_cpt_codes`, as the lookup function of the dict. -/
def cpt_codes : String → Option CptInfo
  | "90791" => some { description := "Psychiatric diagnostic evaluation", rate := 150.00, duration_minutes := 50 }
  | "90832" => some { description := "Psychotherapy, 30 minutes", rate := 65.00, duration_minutes := 30 }
  | "90834" => some { description := "Psychotherapy, 45 minutes", rate := 85.00, duration_minutes := 45 }
  | "90837" => some { description := "Psychotherapy, 60 minutes", rate := 130.00, duration_minutes := 60 }
  | "90853" => some { description := "Group psychotherapy", rate := 50.00, duration_minutes := 90 }
  | "96127" => some { description := "Brief emotional/behavioral assessment", rate := 25.00, duration_minutes := 15 }
  | _ => none

def payment_methods : List String :=
  ["credit_card", "debit_card", "insurance", "bank_transfer"]

/-- Embeds `BillingAgent.verify_cpt_code`: `(True, details)` or `(False, \x7b\x7d)`. -/
def verify_cpt_code (code : String) : Bool × Option CptInfo :=
  match cpt_codes code with
  | some details => (true, some details)
  | none => (false, none)

/-- Return dictionary of `calculate_service_cost`; `none` fields model keys
absent from the respective branch dictionary. -/
structure ServiceCost where
  success : Bool
  error : Option String := none
  service : Option String := none
  base_rate : Option ℚ := none
  units : Option Nat := none
  modifiers : Option (List String) := none
  total_cost : ℚ
  duration_minutes : Option Nat := none
  deriving DecidableEq

/-- Embeds `BillingAgent.calculate_service_cost`.  The Python parameter
`modifiers` is `Optional[List[str]]` with default `None`; `None` is
modelled by `[]`, which the truthiness guard `if modifiers:` treats
identically. -/
def calculate_service_cost (cpt_code : String) (units : Nat)
    (modifiers : List String) : ServiceCost :=
  match cpt_codes cpt_code with
  | none =>
      { success := false
        error := some ("Invalid CPT code: " ++ cpt_code)
        total_cost := 0.0 }
  | some code_details =>
      let base_rate := code_details.rate
      let total_cost := base_rate * (units : ℚ)
      let total_cost :=
        if modifiers.isEmpty then total_cost
        else
          let total_cost :=
            if modifiers.contains "22" then total_cost * 1.5 else total_cost
          if modifiers.contains "52" then total_cost * 0.5 else total_cost
      { success := true
        service := some code_details.description
        base_rate := some base_rate
        units := some units
        modifiers := some modifiers
        total_cost := total_cost
        duration_minutes := some (code_details.duration_minutes * units) }

structure Transaction where
  transaction_id : String
  patient_id : String
  amount : ℚ
  payment_method : String
  service_details : ServiceCost
  timestamp : String
  status : String
  deriving DecidableEq

structure Invoice where
  invoice_id : String
  patient_id : String
  services : List ServiceCost
  total_amount : ℚ
  issue_date : String
  due_date : String
  payment_status : String
  deriving DecidableEq

structure BillingAgent where
  transactions : List Transaction
  invoices : List Invoice
  deriving DecidableEq

/-- Embeds `BillingAgent.__init__` ledgers. -/
def mkBillingAgent : BillingAgent := { transactions := [], invoices := [] }

structure PaymentResult where
  success : Bool
  error : Option String := none
  transaction_id : Option String := none
  amount : Option ℚ := none
  timestamp : Option String := none
  deriving DecidableEq

/-- Embeds `BillingAgent.process_payment`. -/
def process_payment (ag : BillingAgent) (patient_id : String) (amount : ℚ)
    (payment_method : String) (service_details : ServiceCost) (now : String) :
    BillingAgent × PaymentResult :=
  if (payment_methods.contains payment_method) = false then
    (ag,
     { success := false
       error := some ("Invalid payment method: " ++ payment_method)
       transaction_id := none })
  else
    let transaction_id :=
      "TXN-" ++ toString (ag.transactions.length + 1) ++ "-" ++ now
    let transaction : Transaction :=
      { transaction_id := transaction_id
        patient_id := patient_id
        amount := amount
        payment_method := payment_method
        service_details := service_details
        timestamp := now
        status := "completed" }
    ({ ag with transactions := ag.transactions ++ [transaction] },
     { success := true
       transaction_id := some transaction_id
       amount := some amount
       timestamp := some now })

/-- Embeds `BillingAgent.generate_invoice`.  `service.get("total_cost", 0)` reads
the always-present `total_cost` field; `due` abstracts `now + 30 days`. -/
def generate_invoice (ag : BillingAgent) (patient_id : String)
    (services : List ServiceCost) (payment_status : String) (now due : String) :
    BillingAgent × Invoice :=
  let total_amount := (services.map (fun s => s.total_cost)).sum
  let invoice_id := "INV-" ++ toString (ag.invoices.length + 1) ++ "-" ++ now
  let invoice : Invoice :=
    { invoice_id := invoice_id
      patient_id := patient_id
      services := services
      total_amount := total_amount
      issue_date := now
      due_date := due
      payment_status := payment_status }
  ({ ag with invoices := ag.invoices ++ [invoice] }, invoice)

structure BillingHistory where
  patient_id : String
  transactions : List Transaction
  invoices : List Invoice
  total_paid : ℚ
  outstanding_balance : ℚ
  deriving DecidableEq

/-- Embeds `BillingAgent.get_patient_billing_history` (read-only). -/
def get_patient_billing_history (ag : BillingAgent) (patient_id : String) :
    BillingHistory :=
  let transactions := ag.transactions.filter (fun t => t.patient_id == patient_id)
  let invoices := ag.invoices.filter (fun i => i.patient_id == patient_id)
  { patient_id := patient_id
    transactions := transactions
    invoices := invoices
    total_paid := (transactions.map (fun t => t.amount)).sum
    outstanding_balance :=
      ((invoices.filter (fun i => i.payment_status == "unpaid")).map
        (fun i => i.total_amount)).sum }

/-! ### `InsuranceReimbursementAgent` -/

structure InsuranceProvider where
  name : String
  contact : String
  website : String
  coverage : List (String × ℚ)
  requires_preauth : List String
  deriving DecidableEq

/-- Embeds `InsuranceReimbursementAgent._load_insurance_providers`, as the lookup
function of the dict; each `coverage` dict becomes an association list. -/
def insurance_providers : String → Option InsuranceProvider
  | "blue_cross" => some
      { name := "Blue Cross Blue Shield"
        contact := "1-800-123-4567"
        website := "https://www.bluecross.com"
        coverage := [("90791", 0.80), ("90832", 0.70), ("90834", 0.70),
                     ("90837", 0.70), ("90853", 0.80), ("96127", 0.90)]
        requires_preauth := ["90791"] }
  | "aetna" => some
      { name := "Aetna"
        contact := "1-800-987-6543"
        website := "https://www.aetna.com"
        coverage := [("90791", 0.75), ("90832", 0.75), ("90834", 0.75),
                     ("90837", 0.75), ("90853", 0.85), ("96127", 0.85)]
        requires_preauth := ["90791", "90837"] }
  | "united" => some
      { name := "UnitedHealthcare"
        contact := "1-800-456-7890"
        website := "https://www.unitedhealthcare.com"
        coverage := [("90791", 0.70), ("90832", 0.70), ("90834", 0.70),
                     ("90837", 0.70), ("90853", 0.80), ("96127", 0.80)]
        requires_preauth := [] }
  | _ => none

/-- Return dictionary of `verify_coverage`. -/
structure CoverageResult where
  verified : Bool
  error : Option String := none
  coverage_percentage : ℚ
  insurance_id : Option String := none
  provider : Option String := none
  cpt_code : Option String := none
  requires_preauthorization : Option Bool := none
  estimated_patient_responsibility : Option ℚ := none
  deriving DecidableEq

/-- Embeds `InsuranceReimbursementAgent.verify_coverage` (read-only). -/
def verify_coverage (insurance_id provider_code cpt_code : String) :
    CoverageResult :=
  match insurance_providers provider_code with
  | none =>
      { verified := false
        error := some ("Unknown insurance provider: " ++ provider_code)
        coverage_percentage := 0.0 }
  | some provider =>
      match provider.coverage.lookup cpt_code with
      | none =>
          { verified := false
            error := some ("Service not covered: " ++ cpt_code)
            coverage_percentage := 0.0 }
      | some coverage_percentage =>
          { verified := true
            insurance_id := some insurance_id
            provider := some provider.name
            cpt_code := some cpt_code
            coverage_percentage := coverage_percentage
            requires_preauthorization :=
              some (provider.requires_preauth.contains cpt_code)
            estimated_patient_responsibility :=
              some (1.0 - coverage_percentage) }

/-- The `patient_info` / `provider_info` dictionaries are carried through
unread; they are modelled opaquely. -/
abbrev PatientInfo := String
abbrev ProviderInfo := String

/-- Only the keys the code reads (`service_info.get("cpt_code", "")`,
`service_info.get("total_cost", 0)`) are modelled; the `.get` defaults are
ordinary values of the fields. -/
structure ServiceInfo where
  cpt_code : String
  total_cost : ℚ
  deriving DecidableEq

structure InsuranceInfo where
  insurance_id : String
  provider_code : String
  deriving DecidableEq

structure StatusEntry where
  status : String
  timestamp : String
  notes : String
  deriving DecidableEq

structure Claim where
  claim_id : String
  patient_info : PatientInfo
  provider_info : ProviderInfo
  service_info : ServiceInfo
  insurance_info : InsuranceInfo
  coverage_details : CoverageResult
  submission_date : String
  status : String
  status_history : List StatusEntry
  deriving DecidableEq

structure Reimbursement where
  reimbursement_id : String
  claim_id : String
  amount : ℚ
  payment_date : String
  patient_info : PatientInfo
  insurance_info : InsuranceInfo
  service_info : ServiceInfo
  deriving DecidableEq

structure InsuranceReimbursementAgent where
  claims : List Claim
  reimbursements : List Reimbursement
  deriving DecidableEq

/-- Embeds `InsuranceReimbursementAgent.__init__` ledgers. -/
def mkInsuranceAgent : InsuranceReimbursementAgent :=
  { claims := [], reimbursements := [] }

structure SubmitResult where
  success : Bool
  error : Option String := none
  claim_id : Option String := none
  submission_date : Option String := none
  status : Option String := none
  estimated_reimbursement : Option ℚ := none
  deriving DecidableEq

/-- Embeds `InsuranceReimbursementAgent.submit_claim`; `uuid8` abstracts
`str(uuid.uuid4())[:8]`. -/
def submit_claim (ag : InsuranceReimbursementAgent)
    (patient_info : PatientInfo) (provider_info : ProviderInfo)
    (service_info : ServiceInfo) (insurance_info : InsuranceInfo)
    (uuid8 now : String) : InsuranceReimbursementAgent × SubmitResult :=
  let coverage :=
    verify_coverage insurance_info.insurance_id insurance_info.provider_code
      service_info.cpt_code
  if coverage.verified = false then
    (ag,
     { success := false
       error := some (coverage.error.getD "Coverage verification failed")
       claim_id := none })
  else
    let claim_id := "CLM-" ++ uuid8
    let claim : Claim :=
      { claim_id := claim_id
        patient_info := patient_info
        provider_info := provider_info
        service_info := service_info
        insurance_info := insurance_info
        coverage_details := coverage
        submission_date := now
        status := "submitted"
        status_history :=
          [{ status := "submitted", timestamp := now,
             notes := "Initial claim submission" }] }
    ({ ag with claims := ag.claims ++ [claim] },
     { success := true
       claim_id := some claim_id
       submission_date := some now
       status := some "submitted"
       estimated_reimbursement :=
         some (service_info.total_cost * coverage.coverage_percentage) })

structure StatusResult where
  success : Bool
  error : Option String := none
  claim_id : Option String := none
  status : Option String := none
  status_history : Option (List StatusEntry) := none
  submission_date : Option String := none
  deriving DecidableEq

/-- Embeds `InsuranceReimbursementAgent.check_claim_status` (read-only): the
for-loop returns at the first claim with matching id. -/
def check_claim_status (ag : InsuranceReimbursementAgent) (claim_id : String) :
    StatusResult :=
  match ag.claims.find? (fun c => c.claim_id == claim_id) with
  | some claim =>
      { success := true
        claim_id := some claim_id
        status := some claim.status
        status_history := some claim.status_history
        submission_date := some claim.submission_date }
  | none =>
      { success := false
        error := some ("Claim not found: " ++ claim_id) }

structure UpdateResult where
  success : Bool
  error : Option String := none
  claim_id : Option String := none
  status : Option String := none
  updated_at : Option String := none
  deriving DecidableEq

/-- The in-place mutation of `update_claim_status`: rewrite the first claim
whose id matches, leaving every other claim untouched; `none` when no claim
matches. -/
def updateClaimsList (claim_id new_status notes now : String) :
    List Claim → Option (List Claim)
  | [] => none
  | c :: rest =>
      if c.claim_id == claim_id then
        some ({ c with
                status := new_status
                status_history := c.status_history ++
                  [{ status := new_status, timestamp := now, notes := notes }] }
              :: rest)
      else
        match updateClaimsList claim_id new_status notes now rest with
        | some rest2 => some (c :: rest2)
        | none => none

/-- Embeds `InsuranceReimbursementAgent.update_claim_status`. -/
def update_claim_status (ag : InsuranceReimbursementAgent)
    (claim_id new_status notes now : String) :
    InsuranceReimbursementAgent × UpdateResult :=
  match updateClaimsList claim_id new_status notes now ag.claims with
  | some claims2 =>
      ({ ag with claims := claims2 },
       { success := true
         claim_id := some claim_id
         status := some new_status
         updated_at := some now })
  | none =>
      (ag,
       { success := false
         error := some ("Claim not found: " ++ claim_id) })

structure ReimbursementResult where
  success : Bool
  error : Option String := none
  reimbursement_id : Option String := none
  claim_id : Option String := none
  amount : Option ℚ := none
  payment_date : Option String := none
  deriving DecidableEq

/-- Text rendering of an amount inside the status note
(`f"$\x7bamount:.2f\x7d"`); the exact decimal formatting is immaterial and
abstracted by `toString`. -/
def formatAmount (q : ℚ) : String := toString q

/-- Embeds `InsuranceReimbursementAgent.process_reimbursement`: find the claim
(first match), require status `approved` or `partially_approved`, append a
reimbursement record and re-run `update_claim_status` to mark the claim
`reimbursed`. -/
def process_reimbursement (ag : InsuranceReimbursementAgent)
    (claim_id : String) (amount : ℚ) (uuid8 now : String) :
    InsuranceReimbursementAgent × ReimbursementResult :=
  match ag.claims.find? (fun c => c.claim_id == claim_id) with
  | none =>
      (ag,
       { success := false
         error := some ("Claim not found: " ++ claim_id) })
  | some claim =>
      if (["approved", "partially_approved"].contains claim.status) = false then
        (ag,
         { success := false
           error := some ("Claim not in approved status: " ++ claim.status) })
      else
        let reimbursement_id := "REIMB-" ++ uuid8
        let reimbursement : Reimbursement :=
          { reimbursement_id := reimbursement_id
            claim_id := claim_id
            amount := amount
            payment_date := now
            patient_info := claim.patient_info
            insurance_info := claim.insurance_info
            service_info := claim.service_info }
        let ag2 :=
          { ag with reimbursements := ag.reimbursements ++ [reimbursement] }
        let ag3 :=
          (update_claim_status ag2 claim_id "reimbursed"
            ("Reimbursement processed: $" ++ formatAmount amount) now).1
        (ag3,
         { success := true
           reimbursement_id := some reimbursement_id
           claim_id := some claim_id
           amount := some amount
           payment_date := some now })

/-- Sample data used by the witnesses. -/
def sampleClaim : Claim :=
  { claim_id := "CLM-abc"
    patient_info := "p"
    provider_info := "pr"
    service_info := { cpt_code := "90837", total_cost := 130 }
    insurance_info := { insurance_id := "i", provider_code := "blue_cross" }
    coverage_details := verify_coverage "i" "blue_cross" "90837"
    submission_date := "t0"
    status := "approved"
    status_history :=
      [{ status := "submitted", timestamp := "t0",
         notes := "Initial claim submission" }] }

def sampleAgent : InsuranceReimbursementAgent :=
  { claims := [sampleClaim], reimbursements := [] }

/-! ### Helper lemmas -/

theorem isSubList_isInfix_iff (p : List Char) :
    ∀ s : List Char, isSubList p s = true ↔ p <:+: s := by
  intro s
  induction s with
  | nil =>
      simp [isSubList, List.isEmpty_iff]
  | cons c rest ih =>
      simp only [isSubList, Bool.or_eq_true, List.isPrefixOf_iff_prefix, ih,
        List.infix_cons_iff]

theorem containsSub_iff (needle hay : String) :
    containsSub needle hay = true ↔
      ∃ a b, hay.data = a ++ needle.data ++ b := by
  rw [containsSub, isSubList_isInfix_iff]
  constructor
  · rintro ⟨a, b, h⟩; exact ⟨a, b, h.symm⟩
  · rintro ⟨a, b, h⟩; exact ⟨a, b, h.symm⟩

theorem check_hallucination_flag (d : SimpleHallucinationDetector)
    (text : String) :
    (check_hallucination d text).is_hallucination =
      d.medical_claims.any (fun c => containsSub c (lowerStr text)) := by
  simp only [check_hallucination]
  cases h : d.medical_claims.find? (fun c => containsSub c (lowerStr text)) with
  | none =>
      simp only [List.find?_eq_none] at h
      have hall : d.medical_claims.any (fun c => containsSub c (lowerStr text)) = false := by
        simp only [List.any_eq_false]
        intro x hx
        exact h x hx
      simp [hall]
  | some c =>
      have hc := List.find?_some h
      have hm := List.mem_of_find?_eq_some h
      have hall : d.medical_claims.any (fun c => containsSub c (lowerStr text)) = true :=
        List.any_eq_true.mpr ⟨c, hm, hc⟩
      simp [hall]


theorem add_thought_spec (tr : SimpleThoughtTracker) (t : String) :
    (add_thought tr t).max_history = tr.max_history ∧
    (add_thought tr t).thoughts =
      (if tr.max_history < (tr.thoughts ++ [t]).length
        then (tr.thoughts ++ [t]).drop 1 else tr.thoughts ++ [t]) := by
  simp only [add_thought]
  split <;> simp [*]

theorem drop_one_append {α : Type} (A l2 : List α) (h : A ≠ []) :
    A.drop 1 ++ l2 = (A ++ l2).drop 1 := by
  cases A with
  | nil => exact absurd rfl h
  | cons a rest => simp

theorem foldl_add_thought (ts : List String) :
    ∀ tr : SimpleThoughtTracker, tr.thoughts.length ≤ tr.max_history →
      (ts.foldl add_thought tr).thoughts =
        (tr.thoughts ++ ts).drop
          (tr.thoughts.length + ts.length - tr.max_history) ∧
      (ts.foldl add_thought tr).max_history = tr.max_history := by
  induction ts with
  | nil =>
      intro tr h
      refine ⟨?_, rfl⟩
      rw [List.foldl_nil, List.append_nil, List.length_nil, Nat.add_zero,
        Nat.sub_eq_zero_of_le h, List.drop_zero]
  | cons t ts ih =>
      intro tr h
      obtain ⟨hmax, hth⟩ := add_thought_spec tr t
      have hlen2 : (tr.thoughts ++ [t]).length = tr.thoughts.length + 1 := by
        simp
      by_cases hc : tr.max_history < (tr.thoughts ++ [t]).length
      · rw [if_pos hc] at hth
        have hinv : (add_thought tr t).thoughts.length ≤
            (add_thought tr t).max_history := by
          rw [hmax, hth, List.length_drop]
          omega
        obtain ⟨h1, h2⟩ := ih (add_thought tr t) hinv
        rw [List.foldl_cons]
        refine ⟨?_, by rw [h2, hmax]⟩
        rw [h1, hth, hmax, List.length_drop, hlen2]
        have e1 : (tr.thoughts ++ [t]).drop 1 ++ ts =
            ((tr.thoughts ++ [t]) ++ ts).drop 1 :=
          drop_one_append _ _ (by simp)
        rw [e1, List.drop_drop]
        have e2 : (tr.thoughts ++ [t]) ++ ts = tr.thoughts ++ t :: ts := by
          simp
        rw [e2]
        congr 1
        rw [hlen2] at hc
        simp only [List.length_cons]
        omega
      · rw [if_neg hc] at hth
        have hinv : (add_thought tr t).thoughts.length ≤
            (add_thought tr t).max_history := by
          rw [hmax, hth, hlen2]
          omega
        obtain ⟨h1, h2⟩ := ih (add_thought tr t) hinv
        rw [List.foldl_cons]
        refine ⟨?_, by rw [h2, hmax]⟩
        rw [h1, hth, hmax]
        have e2 : (tr.thoughts ++ [t]) ++ ts = tr.thoughts ++ t :: ts := by
          simp
        rw [e2]
        congr 1
        rw [hlen2]
        simp only [List.length_cons]
        omega

theorem updateClaimsList_eq_none (cid ns notes now : String) :
    ∀ cs : List Claim, (∀ c ∈ cs, c.claim_id ≠ cid) →
      updateClaimsList cid ns notes now cs = none := by
  intro cs
  induction cs with
  | nil => intro _; rfl
  | cons a rest ih =>
      intro h
      have ha : (a.claim_id == cid) = false :=
        beq_eq_false_iff_ne.mpr (h a (List.mem_cons_self a rest))
      simp only [updateClaimsList, ha, Bool.false_eq_true, if_false]
      rw [ih (fun c hc => h c (List.mem_cons_of_mem a hc))]

theorem updateClaimsList_eq_some (cid ns notes now : String) :
    ∀ (cs : List Claim) (c : Claim),
      cs.find? (fun x => x.claim_id == cid) = some c →
      ∃ pre post,
        cs = pre ++ c :: post ∧
        (∀ x ∈ pre, x.claim_id ≠ cid) ∧
        updateClaimsList cid ns notes now cs =
          some (pre ++ { c with
            status := ns
            status_history := c.status_history ++
              [{ status := ns, timestamp := now, notes := notes }] } :: post) := by
  intro cs
  induction cs with
  | nil => intro c h; simp at h
  | cons a rest ih =>
      intro c h
      by_cases ha : (a.claim_id == cid) = true
      · have hac : a = c := by
          rw [@List.find?_cons_of_pos _ (fun x => x.claim_id == cid) a rest ha]
            at h
          exact Option.some.inj h
        subst hac
        refine ⟨[], rest, by simp, by simp, ?_⟩
        simp [updateClaimsList, ha]
      · have ha' : (a.claim_id == cid) = false := by simpa using ha
        rw [@List.find?_cons_of_neg _ (fun x => x.claim_id == cid) a rest ha]
          at h
        obtain ⟨pre, post, h1, h2, h3⟩ := ih c h
        refine ⟨a :: pre, post, by rw [List.cons_append, h1], ?_, ?_⟩
        · intro x hx
          rcases List.mem_cons.mp hx with hx | hx
          · subst hx; exact beq_eq_false_iff_ne.mp ha'
          · exact h2 x hx
        · simp only [updateClaimsList, ha', Bool.false_eq_true, if_false, h3,
            List.cons_append]

/-! ### Claim theorems -/

/-- C1: `SimpleHallucinationDetector.check_hallucination` reports a
hallucination exactly when the lowercased text contains one of the seven
static phrases as a substring; in particular any text containing "cure" in
any letter case is flagged, and the `threshold` parameter has no effect on
the result. -/
theorem C1_check_hallucination (th : ℚ) (text : String) :
    ((check_hallucination (mkDetector th) text).is_hallucination = true ↔
      ∃ p ∈ ["cure", "guaranteed", "always works", "100% effective",
             "miracle", "instant relief", "permanent solution"],
        ∃ a b, (lowerStr text).data = a ++ p.data ++ b) ∧
    ((∃ a b, (lowerStr text).data = a ++ "cure".data ++ b) →
      (check_hallucination (mkDetector th) text).is_hallucination = true) ∧
    (∀ th2 : ℚ,
      check_hallucination (mkDetector th) text =
        check_hallucination (mkDetector th2) text) := by
  have hflag := check_hallucination_flag (mkDetector th) text
  refine ⟨?_, ?_, fun th2 => rfl⟩
  · rw [hflag]
    show (mkDetector th).medical_claims.any _ = true ↔ _
    rw [List.any_eq_true]
    constructor
    · rintro ⟨p, hp, hc⟩
      exact ⟨p, hp, (containsSub_iff p (lowerStr text)).mp hc⟩
    · rintro ⟨p, hp, hab⟩
      exact ⟨p, hp, (containsSub_iff p (lowerStr text)).mpr hab⟩
  · intro hab
    rw [hflag, List.any_eq_true]
    refine ⟨"cure", ?_, (containsSub_iff _ _).mpr hab⟩
    simp [mkDetector]

theorem C1_witness :
    (check_hallucination (mkDetector 0.7) "This will Cure you").is_hallucination
      = true :=
  (C1_check_hallucination 0.7 "This will Cure you").2.1
    ⟨"this will ".data, " you".data, by decide⟩

/-- C8: `SimpleThoughtTracker` is a bounded sliding window: after any
sequence of `add_thought` calls starting from a fresh tracker,
`get_thoughts` returns the most recently added thoughts in addition order,
at most `max_history` of them, the oldest discarded when the bound would be
exceeded. -/
theorem C8_thought_tracker_window (max : Nat) (ts : List String) :
    get_thoughts (ts.foldl add_thought (mkTracker max)) =
      ts.drop (ts.length - max) ∧
    (get_thoughts (ts.foldl add_thought (mkTracker max))).length ≤ max := by
  obtain ⟨h1, _⟩ := foldl_add_thought ts (mkTracker max) (by simp [mkTracker])
  have heq : get_thoughts (ts.foldl add_thought (mkTracker max)) =
      ts.drop (ts.length - max) := by
    rw [get_thoughts, h1]
    simp [mkTracker]
  refine ⟨heq, ?_⟩
  rw [heq, List.length_drop]
  omega

/-- C9: whenever `verify_coverage` verifies, the reported
`estimated_patient_responsibility` is exactly `1.0` minus the reported
`coverage_percentage`; whenever it does not verify, the reported
`coverage_percentage` is `0.0`. -/
theorem C9_coverage_algebra (insurance_id provider_code cpt_code : String) :
    ((verify_coverage insurance_id provider_code cpt_code).verified = true →
      (verify_coverage insurance_id provider_code cpt_code).estimated_patient_responsibility
        = some (1.0 -
            (verify_coverage insurance_id provider_code cpt_code).coverage_percentage)) ∧
    ((verify_coverage insurance_id provider_code cpt_code).verified = false →
      (verify_coverage insurance_id provider_code cpt_code).coverage_percentage
        = 0.0) := by
  simp only [verify_coverage]
  cases hp : insurance_providers provider_code with
  | none => simp
  | some provider =>
      cases hc : provider.coverage.lookup cpt_code with
      | none => simp [hc]
      | some q => simp [hc]

theorem C9_witness :
    (verify_coverage "INS98765" "blue_cross" "90837").estimated_patient_responsibility
      = some (1.0 -
          (verify_coverage "INS98765" "blue_cross" "90837").coverage_percentage) :=
  (C9_coverage_algebra "INS98765" "blue_cross" "90837").1 (by decide)

/-- C10: for a valid CPT code, positive units and any modifier list,
`calculate_service_cost` returns the rate times the units, times `1.5`
when modifier "22" is present and times `0.5` when "52" is present, and
a duration of the code duration times the units. -/
theorem C10_service_cost (cpt : String) (info : CptInfo) (units : Nat)
    (mods : List String) (hinfo : cpt_codes cpt = some info)
    (_hu : 0 < units) :
    (calculate_service_cost cpt units mods).total_cost =
      info.rate * (units : ℚ) * (if mods.contains "22" then 1.5 else 1) *
        (if mods.contains "52" then 0.5 else 1) ∧
    (calculate_service_cost cpt units mods).duration_minutes =
      some (info.duration_minutes * units) := by
  simp only [calculate_service_cost, hinfo]
  refine ⟨?_, trivial⟩
  by_cases h0 : mods.isEmpty
  · rw [List.isEmpty_iff] at h0
    subst h0
    simp
  · by_cases h22 : mods.contains "22" <;> by_cases h52 : mods.contains "52" <;>
      simp [h0, h22, h52]

theorem C10_witness :
    (calculate_service_cost "90834" 2 ["22", "52"]).total_cost =
      (85.00 : ℚ) * ((2 : Nat) : ℚ) *
        (if (["22", "52"] : List String).contains "22" then 1.5 else 1) *
        (if (["22", "52"] : List String).contains "52" then 0.5 else 1) ∧
    (calculate_service_cost "90834" 2 ["22", "52"]).duration_minutes =
      some (45 * 2) :=
  C10_service_cost "90834"
    { description := "Psychotherapy, 45 minutes", rate := 85.00,
      duration_minutes := 45 }
    2 ["22", "52"] rfl (by decide)

/-- C3: `update_claim_status` validates nothing: whenever a claim with the
requested id is present (the loop updates the first such claim), any new
status string whatsoever is written, exactly one `{status, timestamp,
notes}` entry is appended to the status history of that claim, every other
claim is untouched, and the call reports success. -/
theorem C3_update_claim_status (ag : InsuranceReimbursementAgent)
    (cid ns notes now : String) (c : Claim)
    (h : ag.claims.find? (fun x => x.claim_id == cid) = some c) :
    (update_claim_status ag cid ns notes now).2.success = true ∧
    (update_claim_status ag cid ns notes now).2.status = some ns ∧
    (update_claim_status ag cid ns notes now).2.error = none ∧
    (update_claim_status ag cid ns notes now).1.reimbursements =
      ag.reimbursements ∧
    ∃ pre post,
      ag.claims = pre ++ c :: post ∧
      (∀ x ∈ pre, x.claim_id ≠ cid) ∧
      (update_claim_status ag cid ns notes now).1.claims =
        pre ++ { c with
          status := ns
          status_history := c.status_history ++
            [{ status := ns, timestamp := now, notes := notes }] } :: post := by
  obtain ⟨pre, post, h1, h2, h3⟩ :=
    updateClaimsList_eq_some cid ns notes now ag.claims c h
  simp only [update_claim_status, h3]
  exact ⟨trivial, trivial, trivial, trivial, pre, post, h1, h2, rfl⟩

theorem C3_witness :
    (update_claim_status sampleAgent "CLM-abc" "garbage_status" "n" "t1").2.success
      = true :=
  (C3_update_claim_status sampleAgent "CLM-abc" "garbage_status" "n" "t1"
    sampleClaim rfl).1

/-- C4: failures are reported as records with `success = false` and an
error string, atomically: a missing claim id makes `check_claim_status`,
`update_claim_status` and `process_reimbursement` return the
"Claim not found" record with the agent state unchanged, and an unknown
CPT code makes the (pure) `calculate_service_cost` return the
"Invalid CPT code" record with `total_cost = 0.0`. -/
theorem C4_error_reporting (ag : InsuranceReimbursementAgent)
    (cid ns notes now uuid8 : String) (amount : ℚ)
    (h : ∀ c ∈ ag.claims, c.claim_id ≠ cid)
    (code : String) (units : Nat) (mods : List String)
    (hcode : cpt_codes code = none) :
    check_claim_status ag cid =
      { success := false, error := some ("Claim not found: " ++ cid) } ∧
    update_claim_status ag cid ns notes now =
      (ag, { success := false, error := some ("Claim not found: " ++ cid) }) ∧
    process_reimbursement ag cid amount uuid8 now =
      (ag, { success := false, error := some ("Claim not found: " ++ cid) }) ∧
    calculate_service_cost code units mods =
      { success := false, error := some ("Invalid CPT code: " ++ code),
        total_cost := 0.0 } := by
  have hfind : ag.claims.find? (fun x => x.claim_id == cid) = none := by
    rw [List.find?_eq_none]
    intro x hx
    simpa using h x hx
  refine ⟨?_, ?_, ?_, ?_⟩
  · simp only [check_claim_status, hfind]
  · simp only [update_claim_status,
      updateClaimsList_eq_none cid ns notes now ag.claims h]
  · simp only [process_reimbursement, hfind]
  · simp only [calculate_service_cost, hcode]

theorem C4_witness :
    check_claim_status mkInsuranceAgent "CLM-x" =
      { success := false, error := some ("Claim not found: " ++ "CLM-x") } ∧
    update_claim_status mkInsuranceAgent "CLM-x" "approved" "" "t0" =
      (mkInsuranceAgent,
       { success := false, error := some ("Claim not found: " ++ "CLM-x") }) ∧
    process_reimbursement mkInsuranceAgent "CLM-x" 5 "u0" "t0" =
      (mkInsuranceAgent,
       { success := false, error := some ("Claim not found: " ++ "CLM-x") }) ∧
    calculate_service_cost "99999" 1 [] =
      { success := false, error := some ("Invalid CPT code: " ++ "99999"),
        total_cost := 0.0 } :=
  C4_error_reporting mkInsuranceAgent "CLM-x" "approved" "" "t0" "u0" 5
    (by simp [mkInsuranceAgent]) "99999" 1 [] rfl

/-- C5: the ledgers are append-only on record creation: a successful
payment appends exactly one transaction and leaves the invoices alone, an
invoice generation appends exactly one invoice and leaves the transactions
alone, and a successful claim submission appends exactly one claim, born
with status "submitted" and a one-entry history, leaving the
reimbursements alone; appending preserves every previously stored
record. -/
theorem C5_append_only (bag : BillingAgent) (pid : String) (amount : ℚ)
    (method : String) (sd : ServiceCost) (now due ps : String)
    (services : List ServiceCost) (iag : InsuranceReimbursementAgent)
    (pinfo : PatientInfo) (prinfo : ProviderInfo) (sinfo : ServiceInfo)
    (iinfo : InsuranceInfo) (uuid8 now2 : String) :
    ((process_payment bag pid amount method sd now).2.success = true →
      ∃ t, (process_payment bag pid amount method sd now).1.transactions =
          bag.transactions ++ [t] ∧
        (process_payment bag pid amount method sd now).1.invoices =
          bag.invoices) ∧
    (∃ inv, (generate_invoice bag pid services ps now due).1.invoices =
        bag.invoices ++ [inv] ∧
      (generate_invoice bag pid services ps now due).1.transactions =
        bag.transactions) ∧
    ((submit_claim iag pinfo prinfo sinfo iinfo uuid8 now2).2.success = true →
      ∃ c, (submit_claim iag pinfo prinfo sinfo iinfo uuid8 now2).1.claims =
          iag.claims ++ [c] ∧
        c.status = "submitted" ∧
        c.status_history.length = 1 ∧
        (submit_claim iag pinfo prinfo sinfo iinfo uuid8 now2).1.reimbursements
          = iag.reimbursements) := by
  refine ⟨?_, ⟨_, rfl, rfl⟩, ?_⟩
  · intro hs
    by_cases hm : (payment_methods.contains method) = false
    · exfalso
      simp only [process_payment, if_pos hm] at hs
      exact Bool.false_ne_true hs
    · simp only [process_payment, if_neg hm]
      exact ⟨_, rfl, trivial⟩
  · intro hs
    by_cases hv : (verify_coverage iinfo.insurance_id iinfo.provider_code
        sinfo.cpt_code).verified = false
    · exfalso
      simp only [submit_claim, if_pos hv] at hs
      exact Bool.false_ne_true hs
    · simp only [submit_claim, if_neg hv]
      exact ⟨_, rfl, rfl, rfl, trivial⟩

theorem C5_witness :
    (∃ t, (process_payment mkBillingAgent "PT1" 10 "credit_card"
        { success := true, total_cost := 10 } "t0").1.transactions =
        mkBillingAgent.transactions ++ [t] ∧
      (process_payment mkBillingAgent "PT1" 10 "credit_card"
        { success := true, total_cost := 10 } "t0").1.invoices =
        mkBillingAgent.invoices) ∧
    (∃ inv, (generate_invoice mkBillingAgent "PT1" [] "unpaid" "t0"
        "t1").1.invoices = mkBillingAgent.invoices ++ [inv] ∧
      (generate_invoice mkBillingAgent "PT1" [] "unpaid" "t0"
        "t1").1.transactions = mkBillingAgent.transactions) ∧
    (∃ c, (submit_claim mkInsuranceAgent "p" "pr"
        { cpt_code := "90837", total_cost := 130 }
        { insurance_id := "i", provider_code := "blue_cross" }
        "u0" "t0").1.claims = mkInsuranceAgent.claims ++ [c] ∧
      c.status = "submitted" ∧
      c.status_history.length = 1 ∧
      (submit_claim mkInsuranceAgent "p" "pr"
        { cpt_code := "90837", total_cost := 130 }
        { insurance_id := "i", provider_code := "blue_cross" }
        "u0" "t0").1.reimbursements = mkInsuranceAgent.reimbursements) := by
  have h := C5_append_only mkBillingAgent "PT1" 10 "credit_card"
    { success := true, total_cost := 10 } "t0" "t1" "unpaid" []
    mkInsuranceAgent "p" "pr" { cpt_code := "90837", total_cost := 130 }
    { insurance_id := "i", provider_code := "blue_cross" } "u0" "t0"
  exact ⟨h.1 (by decide), h.2.1, h.2.2 (by decide)⟩

/-- C6: `get_patient_billing_history` returns exactly the transactions and
invoices of the requested patient, in insertion order, with `total_paid`
the sum of the returned transaction amounts and `outstanding_balance` the
sum of the totals of the returned invoices still marked "unpaid". -/
theorem C6_billing_history (ag : BillingAgent) (pid : String) :
    (∀ t, t ∈ (get_patient_billing_history ag pid).transactions ↔
        t ∈ ag.transactions ∧ t.patient_id = pid) ∧
    List.Sublist (get_patient_billing_history ag pid).transactions ag.transactions ∧
    (∀ inv, inv ∈ (get_patient_billing_history ag pid).invoices ↔
        inv ∈ ag.invoices ∧ inv.patient_id = pid) ∧
    List.Sublist (get_patient_billing_history ag pid).invoices ag.invoices ∧
    (get_patient_billing_history ag pid).patient_id = pid ∧
    (get_patient_billing_history ag pid).total_paid =
      ((get_patient_billing_history ag pid).transactions.map
        (fun t => t.amount)).sum ∧
    (get_patient_billing_history ag pid).outstanding_balance =
      (((get_patient_billing_history ag pid).invoices.filter
          (fun i => decide (i.payment_status = "unpaid"))).map
        (fun i => i.total_amount)).sum := by
  refine ⟨?_, ?_, ?_, ?_, rfl, rfl, ?_⟩
  · intro t
    simp [get_patient_billing_history, List.mem_filter]
  · exact List.filter_sublist _
  · intro inv
    simp [get_patient_billing_history, List.mem_filter]
  · exact List.filter_sublist _
  · simp only [get_patient_billing_history]
    have hcongr : ∀ i ∈ ag.invoices.filter (fun i => i.patient_id == pid),
        (i.payment_status == "unpaid") =
          decide (i.payment_status = "unpaid") := by
      intro i _
      cases hb : i.payment_status == "unpaid" <;> simp_all
    rw [List.filter_congr hcongr]

theorem C6_witness :
    List.Sublist (get_patient_billing_history mkBillingAgent "PT1").transactions
      mkBillingAgent.transactions :=
  (C6_billing_history mkBillingAgent "PT1").2.1

/-- C2: `process_reimbursement` succeeds exactly when a claim with the id
exists (the loop takes the first match) and its status is "approved" or
"partially_approved"; on success it appends exactly one reimbursement
record referencing that claim id and rewrites the claim status to
"reimbursed", completing the progression
submitted → approved/partially_approved → reimbursed. -/
theorem C2_process_reimbursement (ag : InsuranceReimbursementAgent)
    (cid : String) (amount : ℚ) (uuid8 now : String) :
    ((process_reimbursement ag cid amount uuid8 now).2.success = true ↔
      ∃ c, ag.claims.find? (fun x => x.claim_id == cid) = some c ∧
        (c.status = "approved" ∨ c.status = "partially_approved")) ∧
    (∀ c, ag.claims.find? (fun x => x.claim_id == cid) = some c →
      (c.status = "approved" ∨ c.status = "partially_approved") →
      ∃ r pre post,
        (process_reimbursement ag cid amount uuid8 now).1.reimbursements =
          ag.reimbursements ++ [r] ∧
        r.claim_id = cid ∧
        ag.claims = pre ++ c :: post ∧
        (∀ x ∈ pre, x.claim_id ≠ cid) ∧
        (process_reimbursement ag cid amount uuid8 now).1.claims =
          pre ++ { c with
            status := "reimbursed"
            status_history := c.status_history ++
              [{ status := "reimbursed", timestamp := now,
                 notes := "Reimbursement processed: $" ++ formatAmount amount }]
          } :: post) := by
  cases hf : ag.claims.find? (fun x => x.claim_id == cid) with
  | none =>
      refine ⟨?_, ?_⟩
      · simp [process_reimbursement, hf]
      · intro c hc
        exact absurd hc (by simp)
  | some claim =>
      by_cases hst : (["approved", "partially_approved"].contains claim.status)
          = false
      · have hsucc : (process_reimbursement ag cid amount uuid8 now).2.success
            = false := by
          simp only [process_reimbursement, hf, if_pos hst]
        refine ⟨?_, ?_⟩
        · rw [hsucc]
          constructor
          · intro hfalse
            exact absurd hfalse (by simp)
          · rintro ⟨c, hc, hor⟩
            obtain rfl : claim = c := Option.some.inj hc
            rcases hor with h | h <;> rw [h] at hst <;>
              exact absurd hst (by decide)
        · intro c hc hor
          obtain rfl : claim = c := Option.some.inj hc
          rcases hor with h | h <;> rw [h] at hst <;>
            exact absurd hst (by decide)
      · have htrue : (["approved", "partially_approved"].contains claim.status)
            = true := by
          cases hb : (["approved", "partially_approved"].contains claim.status)
          · exact absurd hb hst
          · rfl
        have hmem : claim.status = "approved" ∨
            claim.status = "partially_approved" := by
          have hmem0 : claim.status ∈ ["approved", "partially_approved"] :=
            List.elem_iff.mp htrue
          simpa using hmem0
        obtain ⟨pre, post, h1, h2, h3⟩ :=
          updateClaimsList_eq_some cid "reimbursed"
            ("Reimbursement processed: $" ++ formatAmount amount) now
            ag.claims claim hf
        have hsucc : (process_reimbursement ag cid amount uuid8 now).2.success
            = true := by
          simp only [process_reimbursement, hf, if_neg hst]
        refine ⟨?_, ?_⟩
        · rw [hsucc]
          exact ⟨fun _ => ⟨claim, rfl, hmem⟩, fun _ => rfl⟩
        · intro c hc hor
          obtain rfl : claim = c := Option.some.inj hc
          simp only [process_reimbursement, hf, if_neg hst,
            update_claim_status, h3]
          exact ⟨_, pre, post, rfl, rfl, h1, h2, rfl⟩

theorem C2_witness :
    ∃ r pre post,
      (process_reimbursement sampleAgent "CLM-abc" 91 "u1" "t1").1.reimbursements
        = sampleAgent.reimbursements ++ [r] ∧
      r.claim_id = "CLM-abc" ∧
      sampleAgent.claims = pre ++ sampleClaim :: post ∧
      (∀ x ∈ pre, x.claim_id ≠ "CLM-abc") ∧
      (process_reimbursement sampleAgent "CLM-abc" 91 "u1" "t1").1.claims =
        pre ++ { sampleClaim with
          status := "reimbursed"
          status_history := sampleClaim.status_history ++
            [{ status := "reimbursed", timestamp := "t1",
               notes := "Reimbursement processed: $" ++ formatAmount 91 }]
        } :: post :=
  (C2_process_reimbursement sampleAgent "CLM-abc" 91 "u1" "t1").2
    sampleClaim rfl (Or.inl rfl)

set_option maxRecDepth 40000 in
theorem handle_crisis_lists_resources :
    ∀ p ∈ support_resources, containsSub p.2 handle_crisis_situation = true := by
  decide

/-- C7: crisis detection has priority: any input matching a crisis keyword
yields the crisis response, which lists every configured support resource,
regardless of sensitive topics or hallucination phrases; the
sensitive-topic handler only runs when no crisis keyword matches, and the
hallucination handler only when neither matches. -/
theorem C7_crisis_priority (tr : SimpleThoughtTracker) (input : String) :
    (is_crisis_situation input = true →
      (process_input tr input).2 = handle_crisis_situation ∧
      ∀ p ∈ support_resources,
        containsSub p.2 (process_input tr input).2 = true) ∧
    (is_crisis_situation input = false →
      contains_sensitive_topic input = true →
      (process_input tr input).2 = handle_sensitive_topic input) ∧
    (is_crisis_situation input = false →
      contains_sensitive_topic input = false →
      (check_hallucination agent_detector input).is_hallucination = true →
      (process_input tr input).2 =
        handle_hallucination (check_hallucination agent_detector input)) := by
  refine ⟨?_, ?_, ?_⟩
  · intro hcr
    have hresp : (process_input tr input).2 = handle_crisis_situation := by
      simp [process_input, hcr]
    refine ⟨hresp, ?_⟩
    intro p hp
    rw [hresp]
    exact handle_crisis_lists_resources p hp
  · intro hcr hsens
    simp [process_input, hcr, hsens]
  · intro hcr hsens hhall
    simp [process_input, hcr, hsens, hhall]

theorem C7_witness :
    (process_input (mkTracker 15) "suicide").2 = handle_crisis_situation :=
  ((C7_crisis_priority (mkTracker 15) "suicide").1 (by decide)).1

end EneHealth
